import Mathlib

/-!
Shallow embedding of the gasless subscription Anchor program
(recipes/02-gasless-subscription-service/program/subscription-program/
programs/subscription-program/src/lib.rs).

Modeling conventions:
* Pubkeys are opaque identities modeled as natural numbers; the SPL token
  program id is one distinguished key.
* Machine integers u64 and u8 become Nat, i64 becomes Int.  The program is
  built with overflow checks, so a successful instruction performs exact
  arithmetic; an overflowing instruction aborts and commits nothing, which the
  Except error outcome already covers.
* Each cross-program invocation of the SPL token program (approve, transfer,
  revoke) is recorded as an emitted TokenInstruction; a Bool flag per CPI says
  whether the token program accepted it, and a failing CPI aborts the whole
  instruction, matching the all-or-nothing execution of a Solana transaction.
* The Anchor accounts-struct constraints (Signer, has_one = authority, token
  account key equality, close = authority) run before the handler body; they
  are modeled by the invoke wrappers below the handlers.  The run wrappers
  turn an Except outcome into the committed record state: on any error the
  transaction rolls back and the record is unchanged.
-/

namespace SubscriptionProgram

/-- Opaque account or identity key. -/
abbrev Pubkey := Nat

/-- The fixed program id of the SPL token program (spl_token::ID), modeled as
an arbitrary distinguished key. -/
def spl_token_ID : Pubkey := 0

/-- Largest u64 value; the delegated allowance granted at initialization. -/
def U64_MAX : Nat := 2 ^ 64 - 1

/-- Error codes of the program (enum ErrorCode in lib.rs). -/
inductive ErrorCode where
  | SubscriptionInactive
  | SubscriptionExpired
  | IntervalNotMet
  | SubscriptionAlreadyCancelled
  | InvalidTokenAccount
  | SubscriptionStillActive
  deriving Repr, DecidableEq

/-- Errors of a whole instruction: a program error code, an Anchor account
validation failure, or a failed cross-program invocation. -/
inductive ProgramError where
  | code (e : ErrorCode)
  | constraintSigner
  | constraintHasOne
  | constraintTokenAccountKey
  | cpiFailed
  deriving Repr, DecidableEq

/-- SPL token instructions issued by the program via CPI. -/
inductive TokenInstruction where
  | approve (account delegate owner : Pubkey) (amount : Nat)
  | transfer (source destination authority : Pubkey) (amount : Nat)
  | revoke (account owner : Pubkey)
  deriving Repr, DecidableEq

/-- The persistent record (struct Subscription in lib.rs). -/
structure Subscription where
  authority : Pubkey
  recipient : Pubkey
  user_token_account : Pubkey
  recipient_token_account : Pubkey
  token_mint : Pubkey
  amount_per_period : Nat
  interval_seconds : Int
  last_charge_timestamp : Int
  created_at : Int
  expires_at : Option Int
  is_active : Bool
  total_charged : Nat
  bump : Nat
  deriving Repr, DecidableEq

/-- Handler initialize_subscription (PREPAID model): approve the subscription
PDA as delegate for u64::MAX over the user token account, transfer the first
payment with the PDA as delegate, then populate the record.  The two Bool
flags model acceptance of the two CPIs by the token program. -/
def initialize_subscription (authority recipient user_token_account
    recipient_token_account token_mint : Pubkey) (amount_per_period : Nat)
    (interval_seconds : Int) (expires_at : Option Int) (now : Int) (bump : Nat)
    (subscription_key : Pubkey) (approve_ok transfer_ok : Bool) :
    Except ProgramError (Subscription × List TokenInstruction) :=
  if !approve_ok then .error .cpiFailed
  else if !transfer_ok then .error .cpiFailed
  else .ok
    ({ authority := authority
       recipient := recipient
       user_token_account := user_token_account
       recipient_token_account := recipient_token_account
       token_mint := token_mint
       amount_per_period := amount_per_period
       interval_seconds := interval_seconds
       last_charge_timestamp := now
       created_at := now
       expires_at := expires_at
       is_active := true
       total_charged := amount_per_period
       bump := bump },
     [TokenInstruction.approve user_token_account subscription_key authority U64_MAX,
      TokenInstruction.transfer user_token_account recipient_token_account
        subscription_key amount_per_period])

/-- Expiry gate of charge_subscription: when expires_at is set, the current
time must be strictly before it. -/
def expiry_ok (expires_at : Option Int) (current_time : Int) : Bool :=
  match expires_at with
  | some e => decide (current_time < e)
  | none => true

/-- Handler charge_subscription: checks is_active, expiry, the charge
interval, that both token accounts are owned by the SPL token program, then
transfers amount_per_period with the PDA as delegate and advances
last_charge_timestamp and total_charged. -/
def charge_subscription (s : Subscription) (current_time : Int)
    (user_token_account_owner recipient_token_account_owner : Pubkey)
    (subscription_key : Pubkey) (transfer_ok : Bool) :
    Except ProgramError (Subscription × List TokenInstruction) :=
  if !s.is_active then .error (.code .SubscriptionInactive)
  else if !expiry_ok s.expires_at current_time then .error (.code .SubscriptionExpired)
  else if current_time - s.last_charge_timestamp < s.interval_seconds then
    .error (.code .IntervalNotMet)
  else if user_token_account_owner ≠ spl_token_ID then
    .error (.code .InvalidTokenAccount)
  else if recipient_token_account_owner ≠ spl_token_ID then
    .error (.code .InvalidTokenAccount)
  else if !transfer_ok then .error .cpiFailed
  else .ok
    ({ s with last_charge_timestamp := current_time,
              total_charged := s.total_charged + s.amount_per_period },
     [TokenInstruction.transfer s.user_token_account s.recipient_token_account
        subscription_key s.amount_per_period])

/-- Handler cancel_subscription: requires the record to be active, then
revokes the delegation on the user token account.  The account closing is done
by the accounts struct (close = authority), modeled in cancel_invoke. -/
def cancel_subscription (s : Subscription) (revoke_ok : Bool) :
    Except ProgramError (List TokenInstruction) :=
  if !s.is_active then .error (.code .SubscriptionAlreadyCancelled)
  else if !revoke_ok then .error .cpiFailed
  else .ok [TokenInstruction.revoke s.user_token_account s.authority]

/-- Handler cleanup_cancelled_subscription: requires the record to be
inactive; the account closing is done by the accounts struct. -/
def cleanup_cancelled_subscription (s : Subscription) : Except ProgramError Unit :=
  if s.is_active then .error (.code .SubscriptionStillActive)
  else .ok ()

/-- Handler update_subscription: requires the record to be active, then
overwrites exactly the provided optional fields. -/
def update_subscription (s : Subscription) (new_amount : Option Nat)
    (new_interval : Option Int) (new_expires_at : Option Int) :
    Except ProgramError Subscription :=
  if !s.is_active then .error (.code .SubscriptionInactive)
  else
    let s1 := match new_amount with
      | some amount => { s with amount_per_period := amount }
      | none => s
    let s2 := match new_interval with
      | some interval => { s1 with interval_seconds := interval }
      | none => s1
    let s3 := if new_expires_at.isSome then { s2 with expires_at := new_expires_at }
      else s2
    .ok s3

/-- Result of an instruction whose accounts struct carries close = authority:
the record account after the call (none when closed), the recipient of the
storage rent, and the token instructions issued. -/
structure CloseOutcome where
  record : Option Subscription
  rent_to : Option Pubkey
  instructions : List TokenInstruction
  deriving Repr, DecidableEq

/-- Full cancel instruction.  Anchor account validation: the authority account
must have signed, has_one = authority must hold, and the supplied user token
account key must match the record.  On handler success, close = authority
removes the record and refunds its rent to the authority. -/
def cancel_invoke (s : Subscription) (caller : Pubkey) (caller_signed : Bool)
    (user_token_account_key : Pubkey) (revoke_ok : Bool) :
    Except ProgramError CloseOutcome :=
  if !caller_signed then .error .constraintSigner
  else if caller ≠ s.authority then .error .constraintHasOne
  else if user_token_account_key ≠ s.user_token_account then
    .error .constraintTokenAccountKey
  else
    match cancel_subscription s revoke_ok with
    | .error e => .error e
    | .ok instrs =>
      .ok { record := none, rent_to := some s.authority, instructions := instrs }

/-- Full cleanup instruction.  Anchor account validation: the authority must
have signed and has_one = authority must hold; on handler success,
close = authority removes the record and refunds its rent. -/
def cleanup_invoke (s : Subscription) (caller : Pubkey) (caller_signed : Bool) :
    Except ProgramError CloseOutcome :=
  if !caller_signed then .error .constraintSigner
  else if caller ≠ s.authority then .error .constraintHasOne
  else
    match cleanup_cancelled_subscription s with
    | .error e => .error e
    | .ok _ => .ok { record := none, rent_to := some s.authority, instructions := [] }

/-- Full update instruction.  Anchor account validation: the authority must
have signed and has_one = authority must hold before the handler runs. -/
def update_invoke (s : Subscription) (caller : Pubkey) (caller_signed : Bool)
    (new_amount : Option Nat) (new_interval : Option Int)
    (new_expires_at : Option Int) : Except ProgramError Subscription :=
  if !caller_signed then .error .constraintSigner
  else if caller ≠ s.authority then .error .constraintHasOne
  else update_subscription s new_amount new_interval new_expires_at

/-- Committed record state after a charge instruction: on any error the
transaction rolls back and the record is unchanged. -/
def runCharge (s : Subscription) (current_time : Int)
    (user_token_account_owner recipient_token_account_owner : Pubkey)
    (subscription_key : Pubkey) (transfer_ok : Bool) :
    Subscription × Option ProgramError :=
  match charge_subscription s current_time user_token_account_owner
      recipient_token_account_owner subscription_key transfer_ok with
  | .ok (s2, _) => (s2, none)
  | .error e => (s, some e)

/-- Committed record state after a bare update handler call. -/
def runUpdate (s : Subscription) (new_amount : Option Nat)
    (new_interval : Option Int) (new_expires_at : Option Int) :
    Subscription × Option ProgramError :=
  match update_subscription s new_amount new_interval new_expires_at with
  | .ok s2 => (s2, none)
  | .error e => (s, some e)

/-- Committed record state after a full update instruction. -/
def runUpdateInvoke (s : Subscription) (caller : Pubkey) (caller_signed : Bool)
    (new_amount : Option Nat) (new_interval : Option Int)
    (new_expires_at : Option Int) : Subscription × Option ProgramError :=
  match update_invoke s caller caller_signed new_amount new_interval new_expires_at with
  | .ok s2 => (s2, none)
  | .error e => (s, some e)

/-- Committed record state after a full cancel instruction: none when the
account was closed; on error the record survives unchanged. -/
def runCancelInvoke (s : Subscription) (caller : Pubkey) (caller_signed : Bool)
    (user_token_account_key : Pubkey) (revoke_ok : Bool) :
    Option Subscription × Option ProgramError :=
  match cancel_invoke s caller caller_signed user_token_account_key revoke_ok with
  | .ok o => (o.record, none)
  | .error e => (some s, some e)

/-- One attempted charge: its clock value, the owner program of each supplied
token account, and whether the transfer CPI would be accepted. -/
structure ChargeEvent where
  time : Int
  user_token_account_owner : Pubkey
  recipient_token_account_owner : Pubkey
  transfer_ok : Bool
  deriving Repr, DecidableEq

/-- Fold a sequence of charge attempts over a record, keeping the final state
and the number of successful charges; failed attempts leave the record as is. -/
def chargeMany (subscription_key : Pubkey) :
    Subscription → List ChargeEvent → Subscription × Nat
  | s, [] => (s, 0)
  | s, e :: rest =>
    match charge_subscription s e.time e.user_token_account_owner
        e.recipient_token_account_owner subscription_key e.transfer_ok with
    | .ok (s2, _) =>
      let r := chargeMany subscription_key s2 rest
      (r.1, r.2 + 1)
    | .error _ => chargeMany subscription_key s rest

/-- Record states a surviving account of this program can hold: created by
initialize_subscription and rewritten by successful charge_subscription or
update_subscription calls.  cancel_subscription and
cleanup_cancelled_subscription close the account, so no surviving record ever
comes out of them. -/
inductive Reachable : Subscription → Prop where
  | init (authority recipient uta rta mint : Pubkey) (amount : Nat)
      (interval : Int) (expires : Option Int) (now : Int) (bump : Nat)
      (sk : Pubkey) (approve_ok transfer_ok : Bool) (s : Subscription)
      (instrs : List TokenInstruction)
      (h : initialize_subscription authority recipient uta rta mint amount
        interval expires now bump sk approve_ok transfer_ok = .ok (s, instrs)) :
      Reachable s
  | charge (s : Subscription) (t : Int) (uo ro sk : Pubkey) (tok : Bool)
      (s2 : Subscription) (instrs : List TokenInstruction) (hr : Reachable s)
      (h : charge_subscription s t uo ro sk tok = .ok (s2, instrs)) :
      Reachable s2
  | update (s : Subscription) (na : Option Nat) (ni ne : Option Int)
      (s2 : Subscription) (hr : Reachable s)
      (h : update_subscription s na ni ne = .ok s2) : Reachable s2

/-- A concrete record, exactly what initialize_subscription with authority 1,
recipient 2, token accounts 3 and 4, mint 5, amount 1000000, interval 2592000,
no expiry, clock 1000, bump 255 produces. -/
def sampleSub : Subscription :=
  { authority := 1
    recipient := 2
    user_token_account := 3
    recipient_token_account := 4
    token_mint := 5
    amount_per_period := 1000000
    interval_seconds := 2592000
    last_charge_timestamp := 1000
    created_at := 1000
    expires_at := none
    is_active := true
    total_charged := 1000000
    bump := 255 }

/-- The sample record with its active flag cleared. -/
def sInactive : Subscription := { sampleSub with is_active := false }

/-- Inversion of a successful initialization: the produced record and the
emitted instruction sequence are fully determined by the arguments. -/
theorem init_ok_spec {authority recipient uta rta mint : Pubkey} {amount : Nat}
    {interval : Int} {expires : Option Int} {now : Int} {bump : Nat}
    {sk : Pubkey} {approve_ok transfer_ok : Bool} {s : Subscription}
    {instrs : List TokenInstruction}
    (h : initialize_subscription authority recipient uta rta mint amount
      interval expires now bump sk approve_ok transfer_ok = .ok (s, instrs)) :
    s = { authority := authority
          recipient := recipient
          user_token_account := uta
          recipient_token_account := rta
          token_mint := mint
          amount_per_period := amount
          interval_seconds := interval
          last_charge_timestamp := now
          created_at := now
          expires_at := expires
          is_active := true
          total_charged := amount
          bump := bump } ∧
    instrs = [TokenInstruction.approve uta sk authority U64_MAX,
              TokenInstruction.transfer uta rta sk amount] := by
  unfold initialize_subscription at h
  split at h
  · exact absurd h (by simp)
  · split at h
    · exact absurd h (by simp)
    · simp only [Except.ok.injEq, Prod.mk.injEq] at h
      exact ⟨h.1.symm, h.2.symm⟩

/-- Inversion of a successful charge: the new record advances exactly the
timestamp and the running total, and the emitted instruction is the single
delegated transfer. -/
theorem charge_ok_spec {s : Subscription} {t : Int} {uo ro sk : Pubkey}
    {tok : Bool} {s2 : Subscription} {instrs : List TokenInstruction}
    (h : charge_subscription s t uo ro sk tok = .ok (s2, instrs)) :
    s2 = { s with last_charge_timestamp := t,
                  total_charged := s.total_charged + s.amount_per_period } ∧
    instrs = [TokenInstruction.transfer s.user_token_account
        s.recipient_token_account sk s.amount_per_period] := by
  unfold charge_subscription at h
  repeat' split at h
  any_goals exact Except.noConfusion h
  simp only [Except.ok.injEq, Prod.mk.injEq] at h
  exact ⟨h.1.symm, h.2.symm⟩

/-- Inversion of a successful update: provided fields overwrite, absent fields
stay, and every other field of the record is untouched. -/
theorem update_ok_spec {s : Subscription} {na : Option Nat} {ni ne : Option Int}
    {s2 : Subscription} (h : update_subscription s na ni ne = .ok s2) :
    s2 = { s with amount_per_period := na.getD s.amount_per_period,
                  interval_seconds := ni.getD s.interval_seconds,
                  expires_at := if ne.isSome then ne else s.expires_at } := by
  unfold update_subscription at h
  split at h
  · exact absurd h (by simp)
  · cases na <;> cases ni <;> cases ne <;>
      simp only [Except.ok.injEq, Option.getD, Option.isSome] at h ⊢ <;>
      simp_all

/-- Over any sequence of charge attempts, amount_per_period is preserved and
the running total grows by one amount_per_period per successful charge. -/
theorem chargeMany_spec (sk : Pubkey) (evs : List ChargeEvent) :
    ∀ s : Subscription,
    (chargeMany sk s evs).1.amount_per_period = s.amount_per_period ∧
    (chargeMany sk s evs).1.total_charged =
      s.total_charged + (chargeMany sk s evs).2 * s.amount_per_period := by
  induction evs with
  | nil => intro s; simp [chargeMany]
  | cons e rest ih =>
    intro s
    rcases hc : charge_subscription s e.time e.user_token_account_owner
        e.recipient_token_account_owner sk e.transfer_ok with err | p
    · simp only [chargeMany, hc]
      exact ih s
    · obtain ⟨s2, instrs⟩ := p
      obtain ⟨hs2, hinstrs⟩ := charge_ok_spec hc
      have ha2 : s2.amount_per_period = s.amount_per_period := by rw [hs2]
      have ht2 : s2.total_charged = s.total_charged + s.amount_per_period := by
        rw [hs2]
      simp only [chargeMany, hc]
      obtain ⟨iha, iht⟩ := ih s2
      constructor
      · rw [iha, ha2]
      · rw [iht, ht2, ha2]
        ring

/-- The sample record is a reachable record state of the program. -/
theorem sampleSub_reachable : Reachable sampleSub :=
  Reachable.init 1 2 3 4 5 1000000 2592000 none 1000 255 9 true true sampleSub
    [TokenInstruction.approve 3 9 1 U64_MAX, TokenInstruction.transfer 3 4 9 1000000]
    rfl

/-- C1: for every record and every charge at current time t with is_active
true and, when expires_at is set, t strictly before it, if
t - last_charge_timestamp < interval_seconds then the charge fails with the
IntervalNotMet error and the committed record is unchanged in every field. -/
theorem C1_interval_gate (s : Subscription) (t : Int) (uo ro sk : Pubkey)
    (tok : Bool) (hact : s.is_active = true)
    (hexp : expiry_ok s.expires_at t = true)
    (hint : t - s.last_charge_timestamp < s.interval_seconds) :
    runCharge s t uo ro sk tok =
      (s, some (ProgramError.code ErrorCode.IntervalNotMet)) := by
  have hcall : charge_subscription s t uo ro sk tok =
      .error (.code .IntervalNotMet) := by
    unfold charge_subscription
    simp [hact, hexp, hint]
  unfold runCharge
  rw [hcall]

/-- Witness for C1 on the sample record: a charge 500 seconds after the last
charge, with a 2592000 second interval, fails with IntervalNotMet and leaves
the record as it was. -/
theorem C1_interval_gate_witness :
    runCharge sampleSub 1500 spl_token_ID spl_token_ID 9 true =
      (sampleSub, some (ProgramError.code ErrorCode.IntervalNotMet)) :=
  C1_interval_gate sampleSub 1500 spl_token_ID spl_token_ID 9 true rfl rfl
    (by decide)

/-- C3: every successful charge adds exactly the current amount_per_period to
total_charged and sets last_charge_timestamp to the current time; and from a
freshly initialized record (first payment prepaid), after any sequence of
charge attempts total_charged equals the number of successful charges,
prepaid one included, times amount_per_period. -/
theorem C3_total_counts_successes :
    (∀ (s : Subscription) (t : Int) (uo ro sk : Pubkey) (tok : Bool)
        (s2 : Subscription) (instrs : List TokenInstruction),
        charge_subscription s t uo ro sk tok = .ok (s2, instrs) →
        s2.total_charged = s.total_charged + s.amount_per_period ∧
        s2.last_charge_timestamp = t) ∧
    (∀ (authority recipient uta rta mint : Pubkey) (amount : Nat)
        (interval : Int) (expires : Option Int) (now : Int) (bump : Nat)
        (sk : Pubkey) (approve_ok transfer_ok : Bool) (s0 : Subscription)
        (instrs0 : List TokenInstruction) (evs : List ChargeEvent),
        initialize_subscription authority recipient uta rta mint amount
          interval expires now bump sk approve_ok transfer_ok =
          .ok (s0, instrs0) →
        (chargeMany sk s0 evs).1.total_charged =
          (1 + (chargeMany sk s0 evs).2) * amount) := by
  constructor
  · intro s t uo ro sk tok s2 instrs h
    obtain ⟨hs2, _⟩ := charge_ok_spec h
    subst hs2
    exact ⟨rfl, rfl⟩
  · intro authority recipient uta rta mint amount interval expires now bump sk
      approve_ok transfer_ok s0 instrs0 evs h
    obtain ⟨hs0, _⟩ := init_ok_spec h
    have ha0 : s0.amount_per_period = amount := by rw [hs0]
    have ht0 : s0.total_charged = amount := by rw [hs0]
    obtain ⟨iha, iht⟩ := chargeMany_spec sk evs s0
    rw [iht, ht0, ha0]
    ring

/-- Witness for C3 on the freshly initialized sample record: one successful
later charge brings total_charged to (1 + 1) * 1000000. -/
theorem C3_total_counts_successes_witness :
    (chargeMany 9 sampleSub
        [{ time := 2595000, user_token_account_owner := spl_token_ID,
           recipient_token_account_owner := spl_token_ID,
           transfer_ok := true }]).1.total_charged =
      (1 + (chargeMany 9 sampleSub
        [{ time := 2595000, user_token_account_owner := spl_token_ID,
           recipient_token_account_owner := spl_token_ID,
           transfer_ok := true }]).2) * 1000000 :=
  C3_total_counts_successes.2 1 2 3 4 5 1000000 2592000 none 1000 255 9 true
    true sampleSub
    [TokenInstruction.approve 3 9 1 U64_MAX,
     TokenInstruction.transfer 3 4 9 1000000]
    [{ time := 2595000, user_token_account_owner := spl_token_ID,
       recipient_token_account_owner := spl_token_ID, transfer_ok := true }]
    rfl

/-- C4: on a record with is_active = false, whatever every other field, the
clock, the supplied accounts or the update arguments are, charge_subscription
and update_subscription fail with the SubscriptionInactive error and the
committed record is unchanged. -/
theorem C4_terminal_lock (s : Subscription) (t : Int) (uo ro sk : Pubkey)
    (tok : Bool) (na : Option Nat) (ni ne : Option Int)
    (h : s.is_active = false) :
    runCharge s t uo ro sk tok =
      (s, some (ProgramError.code ErrorCode.SubscriptionInactive)) ∧
    runUpdate s na ni ne =
      (s, some (ProgramError.code ErrorCode.SubscriptionInactive)) := by
  have hc : charge_subscription s t uo ro sk tok =
      .error (.code .SubscriptionInactive) := by
    unfold charge_subscription
    simp [h]
  have hu : update_subscription s na ni ne =
      .error (.code .SubscriptionInactive) := by
    unfold update_subscription
    simp [h]
  constructor
  · unfold runCharge
    rw [hc]
  · unfold runUpdate
    rw [hu]

/-- Witness for C4 on the cancelled sample record. -/
theorem C4_terminal_lock_witness :
    runCharge sInactive 999999999 spl_token_ID spl_token_ID 9 true =
      (sInactive, some (ProgramError.code ErrorCode.SubscriptionInactive)) ∧
    runUpdate sInactive (some 5) none none =
      (sInactive, some (ProgramError.code ErrorCode.SubscriptionInactive)) :=
  C4_terminal_lock sInactive 999999999 spl_token_ID spl_token_ID 9 true
    (some 5) none none rfl

/-- C7: every successful initialization produces a record with
total_charged = amount_per_period, last_charge_timestamp = created_at = the
creation clock value and is_active = true, and issues exactly the delegation
approve followed by the first transfer, in that order, inside initialize. -/
theorem C7_prepaid_first_charge (authority recipient uta rta mint : Pubkey)
    (amount : Nat) (interval : Int) (expires : Option Int) (now : Int)
    (bump : Nat) (sk : Pubkey) (approve_ok transfer_ok : Bool)
    (s : Subscription) (instrs : List TokenInstruction)
    (h : initialize_subscription authority recipient uta rta mint amount
      interval expires now bump sk approve_ok transfer_ok = .ok (s, instrs)) :
    s.total_charged = amount ∧ s.last_charge_timestamp = now ∧
    s.created_at = now ∧ s.is_active = true ∧
    instrs = [TokenInstruction.approve uta sk authority U64_MAX,
              TokenInstruction.transfer uta rta sk amount] := by
  obtain ⟨hs, hi⟩ := init_ok_spec h
  subst hs
  exact ⟨rfl, rfl, rfl, rfl, hi⟩

/-- Witness for C7 at the sample initialization arguments. -/
theorem C7_prepaid_first_charge_witness :
    sampleSub.total_charged = 1000000 ∧
    sampleSub.last_charge_timestamp = 1000 ∧ sampleSub.created_at = 1000 ∧
    sampleSub.is_active = true ∧
    [TokenInstruction.approve 3 9 1 U64_MAX,
     TokenInstruction.transfer 3 4 9 1000000] =
      [TokenInstruction.approve 3 9 1 U64_MAX,
       TokenInstruction.transfer 3 4 9 1000000] :=
  C7_prepaid_first_charge 1 2 3 4 5 1000000 2592000 none 1000 255 9 true true
    sampleSub
    [TokenInstruction.approve 3 9 1 U64_MAX,
     TokenInstruction.transfer 3 4 9 1000000]
    rfl

/-- C8: for every caller other than the record owner, signing or not, the
cancel and update instructions are rejected by account validation before the
handler runs, and the committed record is unchanged. -/
theorem C8_owner_only_mutation (s : Subscription) (caller : Pubkey)
    (caller_signed : Bool) (uta_key : Pubkey) (revoke_ok : Bool)
    (na : Option Nat) (ni ne : Option Int) (h : caller ≠ s.authority) :
    runCancelInvoke s caller caller_signed uta_key revoke_ok =
      (some s, some (if caller_signed then ProgramError.constraintHasOne
        else ProgramError.constraintSigner)) ∧
    runUpdateInvoke s caller caller_signed na ni ne =
      (s, some (if caller_signed then ProgramError.constraintHasOne
        else ProgramError.constraintSigner)) := by
  cases caller_signed <;>
    simp [runCancelInvoke, runUpdateInvoke, cancel_invoke, update_invoke, h]

/-- Witness for C8: caller 99 is not the owner of the sample record (owner 1),
so signed cancel and update attempts fail on the has_one constraint with the
record intact. -/
theorem C8_owner_only_mutation_witness :
    runCancelInvoke sampleSub 99 true 3 true =
      (some sampleSub, some ProgramError.constraintHasOne) ∧
    runUpdateInvoke sampleSub 99 true (some 5) none none =
      (sampleSub, some ProgramError.constraintHasOne) :=
  C8_owner_only_mutation sampleSub 99 true 3 true (some 5) none none
    (by decide)

/-- C9: on an active record, update_subscription overwrites exactly the
provided optional fields and returns the record otherwise unchanged: absent
options leave their field untouched, and total_charged,
last_charge_timestamp, created_at and all identity and account fields are
never modified. -/
theorem C9_update_frame (s : Subscription) (na : Option Nat)
    (ni ne : Option Int) (h : s.is_active = true) :
    update_subscription s na ni ne = .ok
      { s with amount_per_period := na.getD s.amount_per_period,
               interval_seconds := ni.getD s.interval_seconds,
               expires_at := if ne.isSome then ne else s.expires_at } := by
  unfold update_subscription
  cases na <;> cases ni <;> cases ne <;> simp [h]
  rw [← h]

/-- Witness for C9: updating only the amount and the expiry of the sample
record changes exactly those two fields. -/
theorem C9_update_frame_witness :
    update_subscription sampleSub (some 5) none (some 99) =
      .ok { sampleSub with amount_per_period := 5, expires_at := some 99 } :=
  C9_update_frame sampleSub (some 5) none (some 99) rfl

/-- C10: every surviving record state of the program has is_active = true:
initialization sets it to true, successful charges and updates preserve it,
and cancel and cleanup close the account instead of storing false.  Hence the
cleanup precondition is never satisfiable on a record this program produced:
cleanup_cancelled_subscription always fails with SubscriptionStillActive. -/
theorem C10_is_active_invariant (s : Subscription) (h : Reachable s) :
    s.is_active = true ∧
    cleanup_cancelled_subscription s =
      .error (ProgramError.code ErrorCode.SubscriptionStillActive) := by
  have hact : s.is_active = true := by
    induction h with
    | init authority recipient uta rta mint amount interval expires now bump
        sk approve_ok transfer_ok s instrs h =>
      obtain ⟨hs, _⟩ := init_ok_spec h
      rw [hs]
    | charge s t uo ro sk tok s2 instrs hr h ih =>
      obtain ⟨hs2, _⟩ := charge_ok_spec h
      rw [hs2]
      exact ih
    | update s na ni ne s2 hr h ih =>
      have hs2 := update_ok_spec h
      rw [hs2]
      exact ih
  refine ⟨hact, ?_⟩
  unfold cleanup_cancelled_subscription
  simp [hact]

/-- Witness for C10: the sample record is reachable, is active, and cleanup
on it fails with SubscriptionStillActive. -/
theorem C10_is_active_invariant_witness :
    sampleSub.is_active = true ∧
    cleanup_cancelled_subscription sampleSub =
      .error (ProgramError.code ErrorCode.SubscriptionStillActive) :=
  C10_is_active_invariant sampleSub sampleSub_reachable

/-- C2 counterexample: a successful owner-signed cancel of the active sample
record does not store is_active = false anywhere: it revokes the delegation
and closes the record account outright (record component none, rent refunded
to the owner), so no record with is_active = false results from it. -/
theorem C2_cancel_counterexample :
    cancel_invoke sampleSub 1 true 3 true =
      .ok { record := none, rent_to := some 1,
            instructions := [TokenInstruction.revoke 3 1] } := rfl

/-- C2 amended: a successful cancel by the signing owner revokes the standing
delegation on the owner token account and closes the record account,
refunding its rent to the owner; the record ceases to exist instead of having
its is_active field set to false. -/
theorem C2_cancel_revokes_and_closes (s : Subscription)
    (h : s.is_active = true) :
    cancel_invoke s s.authority true s.user_token_account true =
      .ok { record := none, rent_to := some s.authority,
            instructions :=
              [TokenInstruction.revoke s.user_token_account s.authority] } := by
  unfold cancel_invoke cancel_subscription
  simp [h]

/-- Witness for the amended C2 at the sample record. -/
theorem C2_cancel_revokes_and_closes_witness :
    cancel_invoke sampleSub sampleSub.authority true
        sampleSub.user_token_account true =
      .ok { record := none, rent_to := some sampleSub.authority,
            instructions := [TokenInstruction.revoke
              sampleSub.user_token_account sampleSub.authority] } :=
  C2_cancel_revokes_and_closes sampleSub rfl

/-- C5 counterexample: initialization with amount_per_period = 0 and
interval_seconds = -1 does not fail: it grants the allowance, issues a zero
transfer and creates the record with exactly those values. -/
theorem C5_no_validation_counterexample :
    initialize_subscription 1 2 3 4 5 0 (-1) none 1000 255 9 true true =
      .ok ({ authority := 1
             recipient := 2
             user_token_account := 3
             recipient_token_account := 4
             token_mint := 5
             amount_per_period := 0
             interval_seconds := -1
             last_charge_timestamp := 1000
             created_at := 1000
             expires_at := none
             is_active := true
             total_charged := 0
             bump := 255 },
           [TokenInstruction.approve 3 9 1 U64_MAX,
            TokenInstruction.transfer 3 4 9 0]) := rfl

/-- C5 amended: initialize_subscription enforces no precondition on
amount_per_period or interval_seconds: even with amount_per_period = 0 or
interval_seconds < 0, whenever the delegation and the prepaid transfer
succeed the initialization succeeds, granting the allowance and creating the
record with exactly the supplied values. -/
theorem C5_no_precondition_check (authority recipient uta rta mint : Pubkey)
    (amount : Nat) (interval : Int) (expires : Option Int) (now : Int)
    (bump : Nat) (sk : Pubkey) (_h : amount = 0 ∨ interval < 0) :
    initialize_subscription authority recipient uta rta mint amount interval
      expires now bump sk true true =
      .ok ({ authority := authority
             recipient := recipient
             user_token_account := uta
             recipient_token_account := rta
             token_mint := mint
             amount_per_period := amount
             interval_seconds := interval
             last_charge_timestamp := now
             created_at := now
             expires_at := expires
             is_active := true
             total_charged := amount
             bump := bump },
           [TokenInstruction.approve uta sk authority U64_MAX,
            TokenInstruction.transfer uta rta sk amount]) := rfl

/-- Witness for the amended C5 at amount_per_period = 0 and a negative
interval. -/
theorem C5_no_precondition_check_witness :
    initialize_subscription 1 2 3 4 5 0 (-5) none 1000 255 9 true true =
      .ok ({ authority := 1
             recipient := 2
             user_token_account := 3
             recipient_token_account := 4
             token_mint := 5
             amount_per_period := 0
             interval_seconds := -5
             last_charge_timestamp := 1000
             created_at := 1000
             expires_at := none
             is_active := true
             total_charged := 0
             bump := 255 },
           [TokenInstruction.approve 3 9 1 U64_MAX,
            TokenInstruction.transfer 3 4 9 0]) :=
  C5_no_precondition_check 1 2 3 4 5 0 (-5) none 1000 255 9 (Or.inl rfl)

/-- C6 counterexample: cleanup is not permissionless: on the inactive sample
record (owner 1), a signing caller 99 is rejected by the has_one = authority
constraint instead of succeeding. -/
theorem C6_cleanup_counterexample :
    cleanup_invoke sInactive 99 true = .error ProgramError.constraintHasOne :=
  rfl

/-- C6 amended: cleanup requires the record owner as a signer (the accounts
struct carries authority as Signer with has_one = authority): an owner-signed
cleanup of an inactive record succeeds, closing the record and refunding the
storage deposit to the owner; on an active record it fails with
SubscriptionStillActive; any other caller is rejected by account
validation. -/
theorem C6_cleanup_owner_gated (s : Subscription) (caller : Pubkey)
    (caller_signed : Bool) :
    (s.is_active = false → cleanup_invoke s s.authority true =
      .ok { record := none, rent_to := some s.authority,
            instructions := [] }) ∧
    (s.is_active = true → cleanup_invoke s s.authority true =
      .error (ProgramError.code ErrorCode.SubscriptionStillActive)) ∧
    (caller ≠ s.authority → cleanup_invoke s caller caller_signed =
      .error (if caller_signed then ProgramError.constraintHasOne
        else ProgramError.constraintSigner)) := by
  refine ⟨?_, ?_, ?_⟩
  · intro h
    unfold cleanup_invoke cleanup_cancelled_subscription
    simp [h]
  · intro h
    unfold cleanup_invoke cleanup_cancelled_subscription
    simp [h]
  · intro h
    cases caller_signed <;> simp [cleanup_invoke, h]

/-- Witness for the amended C6: the inactive sample record can be cleaned up
by its signing owner, the active sample record cannot be cleaned up at all,
and a non-owner caller is rejected. -/
theorem C6_cleanup_owner_gated_witness :
    cleanup_invoke sInactive sInactive.authority true =
      .ok { record := none, rent_to := some sInactive.authority,
            instructions := [] } ∧
    cleanup_invoke sampleSub sampleSub.authority true =
      .error (ProgramError.code ErrorCode.SubscriptionStillActive) ∧
    cleanup_invoke sInactive 99 true = .error ProgramError.constraintHasOne :=
  ⟨(C6_cleanup_owner_gated sInactive 99 true).1 rfl,
   (C6_cleanup_owner_gated sampleSub 99 true).2.1 rfl,
   (C6_cleanup_owner_gated sInactive 99 true).2.2 (by decide)⟩
